import Mathlib

/-!
Shallow embedding of `discord_twitter_webhooks/send_webhook.py`.

Network I/O is modelled by oracles: an HTTP response oracle
`String → Resp` mapping a webhook/media URL to the response it would
produce, and a `CollageEnv` for the collage-maker GET / existence HEAD
calls.  Python exceptions are modelled by `Except`: a function that can
raise returns `Except PyExn α` (or `Except String α` for `ValueError`).
The mutual recursion between `_send_webhook` and `send_error_webhook`
is made structural with a fuel parameter; running out of fuel models
non-termination (Python's unbounded recursion / `RecursionError`).
-/

/-- HTTP response as seen by the code: `response.ok`, `response.status_code`,
`response.text` (from the `requests` library). -/
structure Resp where
  ok : Bool
  status_code : Nat
  text : String
deriving DecidableEq, Repr

/-- Modelled from the spec: the configuration snapshot supplied by the
settings module (the spec's section 6 configuration surface).  The copy of
`settings.py` in the repository does not define these attributes, but
`send_webhook.py` reads each of them by exactly these names.  Python
truthiness of the string options is modelled as "non-empty"; `send_errors`
is kept as a string because the code compares it with `== "True"`. -/
structure Settings where
  webhook_author_icon : String
  webhook_author_name : String
  webhook_author_url : String
  webhook_image : String
  webhook_thumbnail : String
  webhook_show_timestamp : Bool
  webhook_footer_icon : String
  webhook_footer_text : String
  use_title : Bool
  use_author : Bool
  webhook_embed_color : String
  webhook_randomize_embed_color : Bool
  send_errors : String
  error_webhook : String
  collage_maker_url : String
  upload_images : Bool
  append_image_links : Bool
deriving DecidableEq, Repr

/-- Configuration with every override empty and every toggle off. -/
def defaultSettings : Settings where
  webhook_author_icon := ""
  webhook_author_name := ""
  webhook_author_url := ""
  webhook_image := ""
  webhook_thumbnail := ""
  webhook_show_timestamp := false
  webhook_footer_icon := ""
  webhook_footer_text := ""
  use_title := false
  use_author := false
  webhook_embed_color := ""
  webhook_randomize_embed_color := false
  send_errors := ""
  error_webhook := ""
  collage_maker_url := "https://twitter.lovinator.space/add"
  upload_images := false
  append_image_links := false

/-! Model of Python's `int(s, 16)` (hex parsing as used by
`set_color`: whitespace stripping, optional sign, optional `0x` prefix,
hex digits with single underscores allowed between digits). -/

/-- Characters stripped by Python's `int` before parsing. -/
def isPySpace (c : Char) : Bool :=
  c = ' ' || c = '\t' || c = '\n' || c = '\r' || c = Char.ofNat 11 || c = Char.ofNat 12

/-- Hex digit test: `0-9`, `a-f`, `A-F` (by code point). -/
def isHexDigit (c : Char) : Bool :=
  (48 ≤ c.toNat && c.toNat ≤ 57) || (97 ≤ c.toNat && c.toNat ≤ 102)
    || (65 ≤ c.toNat && c.toNat ≤ 70)

/-- Numeric value of a hex digit (by code point). -/
def hexDigitVal (c : Char) : Nat :=
  if c.toNat ≤ 57 then c.toNat - 48
  else if 97 ≤ c.toNat then c.toNat - 87
  else c.toNat - 55

/-- Digits after the first: hex digits, with a single `_` allowed only
between two digits (Python's underscore rule). -/
def hexTail : List Char → Nat → Option Nat
  | [], acc => some acc
  | c :: rest, acc =>
    if c = '_' then
      match rest with
      | [] => none
      | d :: rest2 => if isHexDigit d then hexTail rest2 (acc * 16 + hexDigitVal d) else none
    else if isHexDigit c then hexTail rest (acc * 16 + hexDigitVal c)
    else none

/-- A non-empty run of hex digits (underscores between digits allowed). -/
def pyIntHexCore (l : List Char) : Option Nat :=
  match l with
  | [] => none
  | c :: rest => if isHexDigit c then hexTail rest (hexDigitVal c) else none

/-- Drop one leading underscore (allowed right after the `0x` prefix). -/
def dropUnderscorePrefix : List Char → List Char
  | '_' :: rest => rest
  | l => l

/-- Digits with an optional `0x` / `0X` prefix (an underscore may follow
the prefix). -/
def pyIntHexNoSign (l : List Char) : Option Nat :=
  match l with
  | c0 :: c1 :: rest =>
    if c0 = '0' && (c1 = 'x' || c1 = 'X') then pyIntHexCore (dropUnderscorePrefix rest)
    else pyIntHexCore l
  | _ => pyIntHexCore l

/-- Strip leading and trailing whitespace. -/
def pyStrip (l : List Char) : List Char :=
  ((l.dropWhile isPySpace).reverse.dropWhile isPySpace).reverse

/-- Optional single `+` or `-` in front of the digits. -/
def pyIntHexSigned : List Char → Option Int
  | [] => none
  | c :: rest =>
    if c = '+' then (pyIntHexNoSign rest).map Int.ofNat
    else if c = '-' then (pyIntHexNoSign rest).map (fun n => -(Int.ofNat n))
    else (pyIntHexNoSign (c :: rest)).map Int.ofNat

/-- Python's `int(s, 16)`: `none` models a raised `ValueError`. -/
def pyIntHex (s : String) : Option Int :=
  pyIntHexSigned (pyStrip s.toList)

/-- Value of a hex digit string (most significant digit first). -/
def hexValNat (l : List Char) : Nat :=
  l.foldl (fun a c => a * 16 + hexDigitVal c) 0

/-- Python's `hex(n)[2:]` for `n ≥ 0`: lowercase hex digits, no `0x`. -/
def pyHexStr (n : Nat) : String :=
  String.mk (Nat.toDigits 16 n)

/-- Embedding of `set_color` (send_webhook.py lines 117-137).  The
chosen color string is built exactly as in the source and then converted
with `int(embed_color[1:], 16)`; `rand` is the value drawn by
`randint(0, 16777215)` in the randomize branch.  `.error` models the
`ValueError` that `int` raises on an unparseable string; `.ok c` means
`embed.set_color(c)` was called. -/
def set_color (s : Settings) (rand : Nat) : Except String Int :=
  let twitter_blue : String := "#1DA1F2"
  let embed_color : String :=
    if s.webhook_embed_color ≠ "" then
      if s.webhook_embed_color.length = 7 ∧ s.webhook_embed_color.toList.headD ' ' = '#' then
        s.webhook_embed_color
      else
        twitter_blue
    else if s.webhook_randomize_embed_color then
      pyHexStr rand
    else
      twitter_blue
  match pyIntHex (String.mk embed_color.toList.tail) with
  | some v => Except.ok v
  | none => Except.error "ValueError: invalid literal for int() with base 16"

/-! Dispatcher and Error Reporter (`_send_webhook` / `send_error_webhook`,
send_webhook.py lines 198-242). -/

/-- Observable effects of a send: the webhook URLs that received an HTTP
POST (in order), how many times `send_error_webhook` was entered, and
whether the call terminated (`ok = false` means the fuel ran out, i.e.
the Python recursion does not return). -/
structure Trace where
  calls : List String
  errors : Nat
  ok : Bool
deriving DecidableEq, Repr

/-- Sequential composition of two effect traces. -/
def traceAppend (a b : Trace) : Trace :=
  ⟨a.calls ++ b.calls, a.errors + b.errors, a.ok && b.ok⟩

/-- One entry into the Error Reporter, recorded around its body's trace. -/
def traceBump (t : Trace) : Trace :=
  ⟨t.calls, t.errors + 1, t.ok⟩

/-- A pending call in the mutually recursive pair: `send message webhook`
is `_send_webhook(message, webhook, ...)` (the `files` argument plays no
role in the delivery/recursion behaviour and is omitted), `err msg` is
`send_error_webhook(msg)` with its default destination
`settings.error_webhook`. -/
inductive SendReq where
  | send (message webhook : String)
  | err (msg : String)
deriving DecidableEq, Repr

/-- Helper for `pySplit`: accumulates the current piece (reversed). -/
def pySplitAux (sep : Char) : List Char → List Char → List String
  | [], acc => [String.mk acc.reverse]
  | c :: rest, acc =>
    if c = sep then String.mk acc.reverse :: pySplitAux sep rest []
    else pySplitAux sep rest (c :: acc)

/-- Python's `s.split(sep)` for a one-character separator: in particular
`"".split(",") = [""]` and `"A,B,C".split(",") = ["A","B","C"]`. -/
def pySplit (sep : Char) (s : String) : List String :=
  pySplitAux sep s.toList []

/-- Fueled interpreter for `_send_webhook` (lines 198-226) and
`send_error_webhook` (lines 229-242), which call each other:
`_send_webhook` re-enters `send_error_webhook` when the webhook string is
empty and after every non-success response, and `send_error_webhook`
delivers through `_send_webhook` whenever `settings.send_errors == "True"`.
`net` maps each webhook URL to the `requests` response of posting to it. -/
def runSend : Nat → Settings → (String → Resp) → SendReq → Trace
  | 0, _, _, _ => ⟨[], 0, false⟩
  | fuel + 1, s, net, SendReq.err msg =>
    if s.send_errors = "True" then
      traceBump (runSend fuel s net (SendReq.send msg s.error_webhook))
    else
      ⟨[], 1, true⟩
  | fuel + 1, s, net, SendReq.send message webhook =>
    if webhook = "" then
      runSend fuel s net (SendReq.err ("No webhook URL found. Trying to send " ++ message))
    else
      (pySplit ',' webhook).foldl
        (fun acc w =>
          let response := net w
          let acc2 : Trace := ⟨acc.calls ++ [w], acc.errors, acc.ok⟩
          if response.ok then
            acc2
          else
            traceAppend acc2 (runSend fuel s net (SendReq.err
              ("Got " ++ toString response.status_code ++ " from " ++ webhook
                ++ ", response: " ++ response.text))))
        ⟨[], 0, true⟩

/-- Embedding of `send_error_webhook(msg)` called with its default
destination argument `settings.error_webhook`. -/
def send_error_webhook (fuel : Nat) (s : Settings) (net : String → Resp) (msg : String) : Trace :=
  runSend fuel s net (SendReq.err msg)

/-! Collage Resolver (`get_embed_image`, send_webhook.py lines 140-184). -/

/-- Python exceptions that the collage path can raise and does not catch:
`requests` timeouts, `json.JSONDecodeError` from `json.loads`, `KeyError`
from `json_data["url"]`, and `ValueError` from `int` in `set_color`. -/
inductive PyExn where
  | timeout
  | jsonDecodeError
  | keyError
  | valueError (msg : String)
deriving DecidableEq, Repr

/-- Result of `json.loads(response.text)` followed by `json_data["url"]`:
the body may fail to parse, parse without a `url` field, or yield a URL. -/
inductive JsonModel where
  | parseError
  | missingUrl
  | url (u : String)
deriving DecidableEq, Repr

/-- Oracle for the two auxiliary HTTP calls of `get_embed_image`:
the collage-maker `GET` (`Except.error ()` models a raised timeout),
the existence `HEAD` per candidate URL, and the parse of the collage
response body. -/
structure CollageEnv where
  collageResp : Except Unit Resp
  headResp : String → Except Unit Resp
  jsonUrl : String → JsonModel

/-- Embedding of `get_embed_image` (lines 140-184).  Returns the chosen
embed image together with the number of `send_error_webhook` reports made
on the way (the reports' own delivery behaviour is interpreted separately
by `runSend`); `.error` models an uncaught exception propagating to the
caller. -/
def get_embed_image (env : CollageEnv) (media_links : List String) (tweet_id : Nat) :
    Except PyExn (String × Nat) :=
  if media_links.length ≠ 0 then
    if media_links.length = 1 then
      Except.ok (media_links.headD "", 0)
    else if media_links.length > 1 then
      match env.collageResp with
      | Except.error _ => Except.error PyExn.timeout
      | Except.ok response =>
        if response.ok then
          match env.jsonUrl response.text with
          | JsonModel.parseError => Except.error PyExn.jsonDecodeError
          | JsonModel.missingUrl => Except.error PyExn.keyError
          | JsonModel.url embed_image =>
            match env.headResp embed_image with
            | Except.error _ => Except.error PyExn.timeout
            | Except.ok if_exists =>
              if ¬ if_exists.ok then Except.ok (media_links.headD "", 1)
              else Except.ok (embed_image, 0)
        else
          Except.ok (media_links.headD "", 1)
    else
      Except.ok ("", 0)
  else
    Except.ok ("", 0)

/-! Embed Builder (`send_embed_webhook`, send_webhook.py lines 28-114)
and footer customization (`customize_footer`, lines 13-25). -/

/-- The `DiscordEmbed` fields this code sets.  Empty string means the
image/thumbnail was never set; `footer` holds the icon and/or text that
were passed to `set_footer`. -/
structure Embed where
  description : String
  image : String := ""
  thumbnail : String := ""
  title : Option String := none
  author : Option (String × String × String) := none
  footer : Option (Option String × Option String) := none
  timestamp : Bool := false
  color : Option Int := none
deriving DecidableEq, Repr

/-- Embedding of `customize_footer` (lines 13-25). -/
def customize_footer (s : Settings) (embed : Embed) : Embed :=
  let footer_icon := s.webhook_footer_icon
  let footer_text := s.webhook_footer_text
  if footer_icon ≠ "" ∧ footer_text ≠ "" then
    { embed with footer := some (some footer_icon, some footer_text) }
  else if footer_icon ≠ "" then
    { embed with footer := some (some footer_icon, none) }
  else if footer_text ≠ "" then
    { embed with footer := some (none, some footer_text) }
  else
    embed

/-- Embed construction part of `send_embed_webhook` (lines 57-98), in
source order: description, card image, collage image, author-identity
overrides, configured image/thumbnail, timestamp, footer, title, author
block, color.  Returns the built embed and the number of error reports
`get_embed_image` made; `.error` models an uncaught exception from
`get_embed_image` or `set_color`. -/
def buildTweetEmbed (s : Settings) (env : CollageEnv) (rand : Nat) (tweet_id : Nat)
    (media_links : List String) (text : String) (twitter_card_image : String)
    (avatar_url : String) (display_name : String) (username : String) :
    Except PyExn (Embed × Nat) :=
  let tweet_url := "https://twitter.com/" ++ username ++ "/status/" ++ toString tweet_id
  let embed : Embed := { description := text }
  let embed := if twitter_card_image ≠ "" then { embed with image := twitter_card_image } else embed
  match get_embed_image env media_links tweet_id with
  | Except.error e => Except.error e
  | Except.ok (embed_image, collage_errors) =>
    let embed := if embed_image ≠ "" then { embed with image := embed_image } else embed
    let avatar_url := if s.webhook_author_icon ≠ "" then s.webhook_author_icon else avatar_url
    let display_name := if s.webhook_author_name ≠ "" then s.webhook_author_name else display_name
    let tweet_url := if s.webhook_author_url ≠ "" then s.webhook_author_url else tweet_url
    let embed := if s.webhook_image ≠ "" then { embed with image := s.webhook_image } else embed
    let embed := if s.webhook_thumbnail ≠ "" then { embed with thumbnail := s.webhook_thumbnail } else embed
    let embed := if s.webhook_show_timestamp then { embed with timestamp := true } else embed
    let embed := customize_footer s embed
    let embed := if s.use_title then
        { embed with title := some (display_name ++ " (@" ++ username ++ ")") }
      else embed
    let embed := if s.use_author then
        { embed with author := some (display_name ++ " (@" ++ username ++ ")", tweet_url, avatar_url) }
      else embed
    match set_color s rand with
    | Except.error e => Except.error (PyExn.valueError e)
    | Except.ok c => Except.ok ({ embed with color := some c }, collage_errors)

/-- Delivery loop of `send_embed_webhook` (lines 104-114): one POST per
comma-split target, a non-success response reported through
`send_error_webhook` (interpreted by `runSend`); failures do not stop the
loop.  The accumulator starts from the error reports `get_embed_image`
already made. -/
def embedDispatch (fuel : Nat) (s : Settings) (net : String → Resp)
    (webhook : String) (collage_errors : Nat) : Trace :=
  (pySplit ',' webhook).foldl
    (fun acc w =>
      let response := net w
      let acc2 : Trace := ⟨acc.calls ++ [w], acc.errors, acc.ok⟩
      if response.ok then
        acc2
      else
        traceAppend acc2 (runSend fuel s net (SendReq.err
          ("Got " ++ toString response.status_code ++ " from " ++ webhook
            ++ ". Response: " ++ response.text))))
    ⟨[], collage_errors, true⟩

/-- Embedding of `send_embed_webhook` (lines 28-114): the empty-webhook
guard (lines 52-54) reports and returns early; otherwise the embed is
built (`buildTweetEmbed`) and the send fans out over the comma-split
webhook string (`embedDispatch`).  Returns the built embed (`none` when
the guard returned early) and the trace of deliveries; `.error` models an
uncaught exception from `get_embed_image` or `set_color`. -/
def send_embed_webhook (fuel : Nat) (s : Settings) (net : String → Resp) (env : CollageEnv)
    (rand : Nat) (tweet_id : Nat) (media_links : List String) (text : String)
    (twitter_card_image : String) (avatar_url : String) (display_name : String)
    (webhook : String) (username : String) : Except PyExn (Option Embed × Trace) :=
  if webhook = "" then
    Except.ok (none, runSend fuel s net (SendReq.err
      ("No webhook URL found. Tried to send tweet embed for " ++ toString tweet_id)))
  else
    match buildTweetEmbed s env rand tweet_id media_links text twitter_card_image
        avatar_url display_name username with
    | Except.error e => Except.error e
    | Except.ok (embed, collage_errors) =>
      Except.ok (some embed, embedDispatch fuel s net webhook collage_errors)

/-! Media Stager (`download_images` lines 269-293 and
`send_hook_and_files` lines 245-266). -/

/-- Python's `media_link.split('/')[-1]`: the final path segment the code
uses as the staged file's name. -/
def lastSegment (media_link : String) : String :=
  (pySplit '/' media_link).getLastD ""

/-- The name of the fresh `tempfile.TemporaryDirectory()`; its actual
random value is irrelevant, only path concatenation matters. -/
def tempDirName : String := "TMPDIR"

/-- The path `f"{temp_dir.name}/{media_link.split('/')[-1]}"` a media
link is staged to (line 287). -/
def stagedPath (media_link : String) : String :=
  tempDirName ++ "/" ++ lastSegment media_link

/-- One iteration of the `download_images` loop (lines 284-292): on a
successful `GET`, write the body to the staged path and append the path
to the list handed to Discord; on failure only log (the accumulator is
unchanged). -/
def downloadStep (net : String → Resp) (acc : List String × List (String × String))
    (media_link : String) : List String × List (String × String) :=
  let res := net media_link
  if res.ok then
    (acc.1 ++ [stagedPath media_link], acc.2 ++ [(stagedPath media_link, res.text)])
  else
    acc

/-- Embedding of `download_images` (lines 269-293).  For each media link
a streamed `GET` is issued; on success the body is written to
`f"{temp_dir.name}/{media_link.split('/')[-1]}"` and that path is appended
to the returned list; on failure the link is only logged.  The second
component records every file write `(path, bytes)` in order, so that a
later write to the same path models the overwrite Python performs. -/
def download_images (net : String → Resp) (media_links : List String) :
    List String × List (String × String) :=
  media_links.foldl (downloadStep net) ([], [])

/-- Content of `path` after the writes in `writes` were performed in
order: the last write wins. -/
def finalContent (writes : List (String × String)) (path : String) : Option String :=
  (writes.filter (fun w => w.1 = path)).getLast?.map (fun w => w.2)

/-- State of the staged temporary directory when `send_hook_and_files`
gives control back: whether a directory was created and whether it still
exists on disk at that point. -/
structure TDState where
  created : Bool
  existsOnDisk : Bool
deriving DecidableEq, Repr

/-- Embedding of `send_hook_and_files` (lines 245-266).  `sendRaises`
says whether the inner `send_normal_webhook` call raises (the source
does not catch exceptions from it: `requests` connection errors, or the
`RecursionError` of a diverging error report).  On a normal return the
result carries the temp-dir state, the staged file paths handed to the
send, and the final message; `Except.error` models the exception
propagating, carrying the temp-dir state at that moment —
`temp_dir.cleanup()` is only reached after the send returns normally. -/
def send_hook_and_files (s : Settings) (net : String → Resp) (sendRaises : Bool)
    (media_links : List String) (msg : String) :
    Except TDState (TDState × List String × String) :=
  let images := if s.upload_images then (download_images net media_links).1 else []
  let created := s.upload_images
  let msg := if s.append_image_links then
      media_links.foldl (fun m media_link => m ++ "\n" ++ media_link) msg
    else msg
  if sendRaises then
    Except.error ⟨created, created⟩
  else
    Except.ok (⟨created, false⟩, images, msg)

/-! Accessors used to state claims about `send_embed_webhook` results. -/

/-- Title of the embed built by a `send_embed_webhook` run, if any. -/
def resultTitle (r : Except PyExn (Option Embed × Trace)) : Option String :=
  match r with
  | Except.ok (some e, _) => e.title
  | _ => none

/-- Author block of the embed built by a `send_embed_webhook` run. -/
def resultAuthor (r : Except PyExn (Option Embed × Trace)) : Option (String × String × String) :=
  match r with
  | Except.ok (some e, _) => e.author
  | _ => none

/-- Delivery trace of a `send_embed_webhook` run that did not raise. -/
def resultTrace (r : Except PyExn (Option Embed × Trace)) : Option Trace :=
  match r with
  | Except.ok (_, t) => some t
  | _ => none

/-! Facts about the hex parser, used for the color-resolver claims. -/

lemma hex_not_eq {c d : Char} (h : isHexDigit c = true) (hd : isHexDigit d = false) : c ≠ d := by
  intro e
  rw [e, hd] at h
  exact Bool.false_ne_true h

lemma hex_not_space {c : Char} (h : isHexDigit c = true) : isPySpace c = false := by
  cases hsp : isPySpace c
  · rfl
  · exfalso
    simp only [isPySpace, Bool.or_eq_true, decide_eq_true_eq] at hsp
    rcases hsp with ((((h1 | h1) | h1) | h1) | h1) | h1 <;> subst h1 <;> revert h <;> decide

lemma dropWhile_all_false {p : Char → Bool} :
    ∀ l : List Char, (∀ c ∈ l, p c = false) → l.dropWhile p = l := by
  intro l
  induction l with
  | nil => intro _; rfl
  | cons c rest _ =>
    intro h
    have hc : p c = false := h c (List.mem_cons_self _ _)
    simp [List.dropWhile, hc]

lemma pyStrip_all_hex {l : List Char} (h : ∀ c ∈ l, isHexDigit c = true) : pyStrip l = l := by
  unfold pyStrip
  rw [dropWhile_all_false l (fun c hc => hex_not_space (h c hc)),
    dropWhile_all_false l.reverse (fun c hc => hex_not_space (h c (List.mem_reverse.mp hc))),
    List.reverse_reverse]

lemma hexTail_all_hex :
    ∀ (l : List Char) (acc : Nat), (∀ c ∈ l, isHexDigit c = true) →
      hexTail l acc = some (l.foldl (fun a c => a * 16 + hexDigitVal c) acc) := by
  intro l
  induction l with
  | nil => intro acc _; rfl
  | cons c rest ih =>
    intro acc h
    have hc : isHexDigit c = true := h c (List.mem_cons_self _ _)
    have hu : c ≠ '_' := hex_not_eq hc (by decide)
    rw [hexTail.eq_def]
    dsimp only
    rw [if_neg hu, if_pos hc, List.foldl_cons]
    exact ih _ (fun d hd => h d (List.mem_cons_of_mem _ hd))

lemma pyIntHexCore_all_hex (c : Char) (rest : List Char)
    (h : ∀ d ∈ c :: rest, isHexDigit d = true) :
    pyIntHexCore (c :: rest) = some (hexValNat (c :: rest)) := by
  have hc : isHexDigit c = true := h c (List.mem_cons_self _ _)
  rw [pyIntHexCore]
  rw [if_pos hc, hexTail_all_hex rest (hexDigitVal c) (fun d hd => h d (List.mem_cons_of_mem _ hd))]
  congr 1
  simp [hexValNat]

lemma pyIntHexNoSign_all_hex :
    ∀ (l : List Char), l ≠ [] → (∀ c ∈ l, isHexDigit c = true) →
      pyIntHexNoSign l = some (hexValNat l) := by
  intro l hne h
  match l with
  | [] => exact absurd rfl hne
  | [c] => exact pyIntHexCore_all_hex c [] h
  | c0 :: c1 :: rest =>
    have hc1 : isHexDigit c1 = true := h c1 (List.mem_cons_of_mem _ (List.mem_cons_self _ _))
    have hx : c1 ≠ 'x' := hex_not_eq hc1 (by decide)
    have hX : c1 ≠ 'X' := hex_not_eq hc1 (by decide)
    rw [pyIntHexNoSign]
    rw [if_neg (by simp [hx, hX])]
    exact pyIntHexCore_all_hex c0 (c1 :: rest) h

lemma pyIntHex_all_hex (c : Char) (rest : List Char)
    (h : ∀ d ∈ c :: rest, isHexDigit d = true) :
    pyIntHex (String.mk (c :: rest)) = some (Int.ofNat (hexValNat (c :: rest))) := by
  have hc : isHexDigit c = true := h c (List.mem_cons_self _ _)
  have hplus : c ≠ '+' := hex_not_eq hc (by decide)
  have hminus : c ≠ '-' := hex_not_eq hc (by decide)
  have hl : (String.mk (c :: rest)).toList = c :: rest := rfl
  rw [pyIntHex, hl, pyStrip_all_hex h, pyIntHexSigned]
  rw [if_neg hplus, if_neg hminus,
    pyIntHexNoSign_all_hex (c :: rest) (List.cons_ne_nil _ _) h]
  rfl

lemma hexDigitVal_le {c : Char} (h : isHexDigit c = true) : hexDigitVal c ≤ 15 := by
  simp only [isHexDigit, Bool.or_eq_true, Bool.and_eq_true, decide_eq_true_eq] at h
  unfold hexDigitVal
  split <;> [skip; split] <;> omega

lemma foldl_hex_lt :
    ∀ (l : List Char) (acc : Nat), (∀ c ∈ l, isHexDigit c = true) →
      l.foldl (fun a c => a * 16 + hexDigitVal c) acc < (acc + 1) * 16 ^ l.length := by
  intro l
  induction l with
  | nil => intro acc _; simp
  | cons c rest ih =>
    intro acc h
    have hv : hexDigitVal c ≤ 15 := hexDigitVal_le (h c (List.mem_cons_self _ _))
    have h2 := ih (acc * 16 + hexDigitVal c) (fun d hd => h d (List.mem_cons_of_mem _ hd))
    rw [List.foldl_cons, List.length_cons]
    calc List.foldl (fun a c => a * 16 + hexDigitVal c) (acc * 16 + hexDigitVal c) rest
        < (acc * 16 + hexDigitVal c + 1) * 16 ^ rest.length := h2
      _ ≤ ((acc + 1) * 16) * 16 ^ rest.length := Nat.mul_le_mul_right _ (by omega)
      _ = (acc + 1) * 16 ^ (rest.length + 1) := by ring

lemma hexValNat_lt {l : List Char} (h : ∀ c ∈ l, isHexDigit c = true) :
    hexValNat l < 16 ^ l.length := by
  have := foldl_hex_lt l 0 h
  simpa [hexValNat] using this

/-! Claim C2 — fixed color string handling in `set_color`. -/

/-- Claim C2, counterexample: `"#GGGGGG"` is a non-empty configured
string that is not a valid `#RRGGBB` color, so the claim predicts the
default `0x1DA1F2` and a normal return; instead the string passes the
code's length-7/leading-`#` check and `int("GGGGGG", 16)` raises a
`ValueError` that propagates to the caller. -/
theorem C2_counterexample :
    set_color { defaultSettings with webhook_embed_color := "#GGGGGG" } 0
      = Except.error "ValueError: invalid literal for int() with base 16" := rfl

/-- Claim C2 (amended): a 7-character string `#` followed by six hex
digits yields exactly the corresponding 24-bit integer; a non-empty
string failing the length-7/leading-`#` shape check logs an error and
yields the default `0x1DA1F2`; but a string passing the shape check is
handed to Python's `int(tail, 16)` unchecked: an unparseable tail makes
`set_color` raise `ValueError` to the caller, and a tail that parses
under `int`'s lenient syntax (sign, whitespace, `0x`, underscores)
yields that parsed value instead of the default. -/
theorem C2_amended_color_resolution :
    (∀ (st : Settings) (rand : Nat) (c1 c2 c3 c4 c5 c6 : Char),
      st.webhook_embed_color = String.mk ['#', c1, c2, c3, c4, c5, c6] →
      (∀ c ∈ [c1, c2, c3, c4, c5, c6], isHexDigit c = true) →
      set_color st rand = Except.ok (Int.ofNat (hexValNat [c1, c2, c3, c4, c5, c6]))
        ∧ hexValNat [c1, c2, c3, c4, c5, c6] < 2 ^ 24)
    ∧ (∀ (st : Settings) (rand : Nat), st.webhook_embed_color ≠ "" →
        ¬ (st.webhook_embed_color.length = 7 ∧ st.webhook_embed_color.toList.headD ' ' = '#') →
        set_color st rand = Except.ok 0x1DA1F2)
    ∧ (∀ (st : Settings) (rand : Nat),
        st.webhook_embed_color.length = 7 →
        st.webhook_embed_color.toList.headD ' ' = '#' →
        pyIntHex (String.mk st.webhook_embed_color.toList.tail) = none →
        set_color st rand = Except.error "ValueError: invalid literal for int() with base 16")
    ∧ (∀ (st : Settings) (rand : Nat) (v : Int),
        st.webhook_embed_color.length = 7 →
        st.webhook_embed_color.toList.headD ' ' = '#' →
        pyIntHex (String.mk st.webhook_embed_color.toList.tail) = some v →
        set_color st rand = Except.ok v) := by
  refine ⟨?_, ?_, ?_, ?_⟩
  · intro st rand c1 c2 c3 c4 c5 c6 hcol hhex
    have hne : st.webhook_embed_color ≠ "" := by
      rw [hcol]
      intro e
      exact absurd (congrArg String.toList e) (by simp)
    have hcond : st.webhook_embed_color.length = 7
        ∧ st.webhook_embed_color.toList.headD ' ' = '#' := by
      rw [hcol]
      exact ⟨rfl, rfl⟩
    have htail : st.webhook_embed_color.toList.tail = [c1, c2, c3, c4, c5, c6] := by
      rw [hcol]
      rfl
    constructor
    · dsimp only [set_color]
      rw [if_pos hne, if_pos hcond, htail, pyIntHex_all_hex c1 [c2, c3, c4, c5, c6] hhex]
    · have h := hexValNat_lt hhex
      have hl : ([c1, c2, c3, c4, c5, c6] : List Char).length = 6 := rfl
      rw [hl] at h
      have h16 : (16 : Nat) ^ 6 = 2 ^ 24 := by norm_num
      rw [h16] at h
      exact h
  · intro st rand hne hcond
    dsimp only [set_color]
    rw [if_pos hne, if_neg hcond]
    rfl
  · intro st rand hlen hhead hparse
    have hne : st.webhook_embed_color ≠ "" := by
      intro e
      rw [e] at hlen
      exact absurd hlen (by decide)
    dsimp only [set_color]
    rw [if_pos hne, if_pos ⟨hlen, hhead⟩, hparse]
  · intro st rand v hlen hhead hparse
    have hne : st.webhook_embed_color ≠ "" := by
      intro e
      rw [e] at hlen
      exact absurd hlen (by decide)
    dsimp only [set_color]
    rw [if_pos hne, if_pos ⟨hlen, hhead⟩, hparse]

/-- Claim C2, witness: the amended theorem applied at the valid color
`"#1DA1F2"`, at the shape-failing string `"blue"`, and at the raising
string `"#GGGGGG"`. -/
theorem C2_witness :
    set_color { defaultSettings with webhook_embed_color := "#1DA1F2" } 0
        = Except.ok 0x1DA1F2
    ∧ set_color { defaultSettings with webhook_embed_color := "blue" } 3
        = Except.ok 0x1DA1F2
    ∧ set_color { defaultSettings with webhook_embed_color := "#GGGGGG" } 1
        = Except.error "ValueError: invalid literal for int() with base 16" := by
  refine ⟨?_, ?_, ?_⟩
  · have h := (C2_amended_color_resolution.1
      { defaultSettings with webhook_embed_color := "#1DA1F2" } 0
      '1' 'D' 'A' '1' 'F' '2' (by decide) (by decide)).1
    rw [h]
    rfl
  · exact C2_amended_color_resolution.2.1
      { defaultSettings with webhook_embed_color := "blue" } 3 (by decide) (by decide)
  · exact C2_amended_color_resolution.2.2.1
      { defaultSettings with webhook_embed_color := "#GGGGGG" } 1 (by decide) (by decide) (by decide)

/-! Claim C3 — the randomize-color branch of `set_color`. -/

/-- Claim C3 (code bug): with no fixed color and the randomize toggle on,
the code builds `hex(rand)[2:]` and then strips one more character with
the `[1:]` meant for a leading `#`.  For the draw 5 (any draw below 16)
the stripped string is empty and `int("", 16)` raises `ValueError`; for
the draw `0x123456` the color set is `0x23456`, the draw with its leading
hex digit dropped — not the drawn value the claim (and the spec's
contract) requires. -/
theorem C3_randomize_branch_bug :
    set_color { defaultSettings with webhook_randomize_embed_color := true } 5
        = Except.error "ValueError: invalid literal for int() with base 16"
    ∧ set_color { defaultSettings with webhook_randomize_embed_color := true } 0x123456
        = Except.ok 0x23456 := ⟨rfl, rfl⟩

/-! Claim C1 — the Error Reporter's behaviour when its own delivery
fails. -/

/-- Claim C1 (code bug): with `send_errors = "True"` and an error
destination `"E"` whose delivery always returns 500, `send_error_webhook`
never terminates — `_send_webhook` re-enters `send_error_webhook` after
every failed response, which posts to `"E"` again — and it performs a new
network call at every level (three calls already within fuel 6), not the
at-most-one delivery attempt the claim requires. -/
theorem C1_error_reporter_recursion :
    (∀ fuel : Nat,
      (send_error_webhook fuel { defaultSettings with send_errors := "True", error_webhook := "E" }
        (fun _ => ⟨false, 500, "oops"⟩) "boom").ok = false)
    ∧ (send_error_webhook 6 { defaultSettings with send_errors := "True", error_webhook := "E" }
        (fun _ => ⟨false, 500, "oops"⟩) "boom").calls = ["E", "E", "E"] := by
  constructor
  · have key : ∀ fuel : Nat,
        (∀ msg, (runSend fuel { defaultSettings with send_errors := "True", error_webhook := "E" }
          (fun _ => ⟨false, 500, "oops"⟩) (SendReq.err msg)).ok = false)
        ∧ (∀ msg, (runSend fuel { defaultSettings with send_errors := "True", error_webhook := "E" }
          (fun _ => ⟨false, 500, "oops"⟩) (SendReq.send msg "E")).ok = false) := by
      intro fuel
      induction fuel with
      | zero => exact ⟨fun _ => rfl, fun _ => rfl⟩
      | succ n ih =>
        constructor
        · intro msg
          rw [runSend]
          rw [if_pos rfl]
          exact ih.2 msg
        · intro msg
          rw [runSend]
          rw [if_neg (by decide : ¬ ("E" = ""))]
          have hsplit : pySplit ',' "E" = ["E"] := rfl
          rw [hsplit, List.foldl_cons, List.foldl_nil]
          simp [traceAppend, ih.1]
    intro fuel
    exact (key fuel).1 "boom"
  · decide

/-! Claim C4 — whether the error destination is split on commas. -/

/-- The per-target loop of `_send_webhook`/`send_embed_webhook` only
accumulates one call per target when every response is a success; `g` is
the (then unreached) error-reporting branch. -/
lemma foldl_sendloop_all_ok (net : String → Resp) (g : Trace → String → Trace) :
    ∀ (ws : List String) (acc : Trace), (∀ w ∈ ws, (net w).ok = true) →
      List.foldl (fun acc w => if (net w).ok then ⟨acc.calls ++ [w], acc.errors, acc.ok⟩
          else g acc w) acc ws
        = ⟨acc.calls ++ ws, acc.errors, acc.ok⟩ := by
  intro ws
  induction ws with
  | nil => intro acc _; simp
  | cons w rest ih =>
    intro acc h
    have hw : (net w).ok = true := h w (List.mem_cons_self _ _)
    rw [List.foldl_cons, if_pos hw, ih _ (fun x hx => h x (List.mem_cons_of_mem _ hx))]
    simp

/-- A `_send_webhook` call on a non-empty webhook string whose comma-split
sub-targets all answer successfully posts to exactly those sub-targets. -/
lemma runSend_send_all_ok (fuel : Nat) (s : Settings) (net : String → Resp)
    (message webhook : String) (hne : webhook ≠ "")
    (hok : ∀ w ∈ pySplit ',' webhook, (net w).ok = true) :
    runSend (fuel + 1) s net (SendReq.send message webhook) = ⟨pySplit ',' webhook, 0, true⟩ := by
  rw [runSend, if_neg hne]
  exact foldl_sendloop_all_ok net
    (fun acc w => traceAppend ⟨acc.calls ++ [w], acc.errors, acc.ok⟩
      (runSend fuel s net (SendReq.err
        ("Got " ++ toString (net w).status_code ++ " from " ++ webhook
          ++ ", response: " ++ (net w).text))))
    (pySplit ',' webhook) ⟨[], 0, true⟩ hok

/-- Claim C4, counterexample: with the error destination `"E1,E2"`, one
Error Reporter invocation posts to `"E1"` and `"E2"` as two separate
sub-targets — the error destination is split on `','` after all, because
`send_error_webhook` delivers through `_send_webhook`, which splits every
webhook string. -/
theorem C4_counterexample :
    send_error_webhook 3 { defaultSettings with send_errors := "True", error_webhook := "E1,E2" }
      (fun _ => ⟨true, 204, ""⟩) "boom" = ⟨["E1", "E2"], 1, true⟩ := by decide

/-- Claim C4 (amended): when delivery is enabled and the (non-empty)
error destination's comma-split sub-targets all answer successfully, the
Error Reporter posts once to each element of `error_webhook.split(",")`,
in order — it fans out over commas exactly like notification
destinations, rather than treating the string as a single target. -/
theorem C4_amended_error_destination_split (s : Settings) (net : String → Resp)
    (msg : String) (fuel : Nat) (hs : s.send_errors = "True") (hne : s.error_webhook ≠ "")
    (hok : ∀ w ∈ pySplit ',' s.error_webhook, (net w).ok = true) :
    send_error_webhook (fuel + 1 + 1) s net msg = ⟨pySplit ',' s.error_webhook, 1, true⟩ := by
  rw [send_error_webhook, runSend, if_pos hs,
    runSend_send_all_ok fuel s net msg s.error_webhook hne hok]
  rfl

/-- Claim C4, witness: the amended theorem applied to a single-target
error destination `"X"` with a succeeding network. -/
theorem C4_witness :
    send_error_webhook 2 { defaultSettings with send_errors := "True", error_webhook := "X" }
      (fun _ => ⟨true, 200, "fine"⟩) "m" = ⟨["X"], 1, true⟩ := by
  have h := C4_amended_error_destination_split
    { defaultSettings with send_errors := "True", error_webhook := "X" }
    (fun _ => ⟨true, 200, "fine"⟩) "m" 0 rfl (by decide) (by intro w hw; rfl)
  exact h

/-! Claim C5 — which display name feeds the embed title. -/

/-- Claim C5, counterexample: for the post with display name `"Alice"`,
username `"alice"`, title toggle on and author-name override `"Bot"`, the
built title is not `"Alice (@alice)"` — line 69 of the source overwrites
the local `display_name` with the override before line 90 builds the
title. -/
theorem C5_counterexample :
    resultTitle (send_embed_webhook 2
      { defaultSettings with webhook_author_name := "Bot", use_title := true, use_author := true }
      (fun _ => ⟨true, 200, "ok"⟩)
      ⟨Except.ok ⟨true, 200, ""⟩, fun _ => Except.ok ⟨true, 200, ""⟩, fun _ => JsonModel.parseError⟩
      0 42 [] "hello" "" "http://a/i.png" "Alice" "W" "alice")
      ≠ some "Alice (@alice)" := by decide

/-- Claim C5 (amended): with the author-name override `"Bot"` the title
is `"Bot (@alice)"` — the override replaces the shared `display_name`
before either field is built, so the title and the author block both use
the override, not the post-derived name. -/
theorem C5_amended_title_uses_override :
    resultTitle (send_embed_webhook 2
      { defaultSettings with webhook_author_name := "Bot", use_title := true, use_author := true }
      (fun _ => ⟨true, 200, "ok"⟩)
      ⟨Except.ok ⟨true, 200, ""⟩, fun _ => Except.ok ⟨true, 200, ""⟩, fun _ => JsonModel.parseError⟩
      0 42 [] "hello" "" "http://a/i.png" "Alice" "W" "alice")
      = some "Bot (@alice)"
    ∧ resultAuthor (send_embed_webhook 2
      { defaultSettings with webhook_author_name := "Bot", use_title := true, use_author := true }
      (fun _ => ⟨true, 200, "ok"⟩)
      ⟨Except.ok ⟨true, 200, ""⟩, fun _ => Except.ok ⟨true, 200, ""⟩, fun _ => JsonModel.parseError⟩
      0 42 [] "hello" "" "http://a/i.png" "Alice" "W" "alice")
      = some ("Bot (@alice)", "https://twitter.com/alice/status/42", "http://a/i.png") := by
  exact ⟨by decide, by decide⟩

/-! Claim C6 — the Collage Resolver's fallbacks per media-list length. -/

/-- Claim C6: an empty media list yields the empty string, a singleton
yields its element unchanged, and a list of two or more with a
non-success collage response falls back to the first element (with one
error report). -/
theorem C6_collage_resolver_fallbacks (env : CollageEnv) (tweet_id : Nat) :
    get_embed_image env [] tweet_id = Except.ok ("", 0)
    ∧ (∀ a : String, get_embed_image env [a] tweet_id = Except.ok (a, 0))
    ∧ (∀ (a b : String) (rest : List String) (resp : Resp),
        env.collageResp = Except.ok resp → resp.ok = false →
        get_embed_image env (a :: b :: rest) tweet_id = Except.ok (a, 1)) := by
  refine ⟨rfl, ?_, ?_⟩
  · intro a
    rfl
  · intro a b rest resp hresp hok
    have h0 : (a :: b :: rest).length ≠ 0 := by simp
    have h1 : ¬ ((a :: b :: rest).length = 1) := by simp
    have h2 : (a :: b :: rest).length > 1 := by simp
    dsimp only [get_embed_image]
    rw [if_pos h0, if_neg h1, if_pos h2, hresp]
    simp [hok]

/-- Claim C6, witness: the theorem applied at a concrete environment
whose collage call answers 503, for lists of length 0, 1 and 2. -/
theorem C6_witness :
    get_embed_image ⟨Except.ok ⟨false, 503, "busy"⟩, fun _ => Except.ok ⟨true, 200, ""⟩,
        fun _ => JsonModel.parseError⟩ [] 9 = Except.ok ("", 0)
    ∧ get_embed_image ⟨Except.ok ⟨false, 503, "busy"⟩, fun _ => Except.ok ⟨true, 200, ""⟩,
        fun _ => JsonModel.parseError⟩ ["one"] 9 = Except.ok ("one", 0)
    ∧ get_embed_image ⟨Except.ok ⟨false, 503, "busy"⟩, fun _ => Except.ok ⟨true, 200, ""⟩,
        fun _ => JsonModel.parseError⟩ ["one", "two"] 9 = Except.ok ("one", 1) := by
  refine ⟨(C6_collage_resolver_fallbacks _ 9).1, (C6_collage_resolver_fallbacks _ 9).2.1 "one",
    (C6_collage_resolver_fallbacks _ 9).2.2 "one" "two" [] ⟨false, 503, "busy"⟩ rfl rfl⟩

/-! Claim C7 — independent fan-out over "A,B,C" with one failure. -/

/-- Claim C7: dispatching the embed to `"A,B,C"` where A answers with a
failure and B, C (and the error destination E) answer successfully
attempts all three deliveries in order, enters the Error Reporter exactly
once (after A), and still completes the deliveries to B and C. -/
theorem C7_dispatcher_independent_fanout (net : String → Resp) (env : CollageEnv) (fuel : Nat)
    (hA : (net "A").ok = false) (hB : (net "B").ok = true) (hC : (net "C").ok = true)
    (hE : (net "E").ok = true) :
    resultTrace (send_embed_webhook (fuel + 1 + 1)
        { defaultSettings with send_errors := "True", error_webhook := "E" }
        net env 0 42 [] "hi" "" "a" "D" "A,B,C" "u")
      = some ⟨["A", "E", "B", "C"], 1, true⟩ := by
  have hokE : ∀ w ∈ pySplit ',' ("E" : String), (net w).ok = true := by
    intro w hw
    simp [pySplit, pySplitAux] at hw
    rw [hw]
    exact hE
  have herr : ∀ msg, runSend (fuel + 1 + 1)
      { defaultSettings with send_errors := "True", error_webhook := "E" } net (SendReq.err msg)
      = ⟨["E"], 1, true⟩ := by
    intro msg
    rw [runSend, if_pos rfl]
    have h1 := runSend_send_all_ok fuel
      { defaultSettings with send_errors := "True", error_webhook := "E" } net msg "E"
      (by decide) hokE
    rw [show ({ defaultSettings with send_errors := "True", error_webhook := "E" } : Settings).error_webhook
        = "E" from rfl, h1]
    rfl
  have hbuild : buildTweetEmbed
      { defaultSettings with send_errors := "True", error_webhook := "E" }
      env 0 42 [] "hi" "" "a" "D" "u"
      = Except.ok ({ description := "hi", color := some 0x1DA1F2 }, 0) := rfl
  dsimp only [send_embed_webhook]
  rw [if_neg (show ¬ (("A,B,C" : String) = "") by decide), hbuild]
  dsimp only [resultTrace]
  congr 1
  dsimp only [embedDispatch]
  rw [show pySplit ',' "A,B,C" = ["A", "B", "C"] from rfl]
  rw [List.foldl_cons, List.foldl_cons, List.foldl_cons, List.foldl_nil]
  simp [hA, hB, hC, herr, traceAppend]

/-- Claim C7, witness: the theorem applied to the concrete network where
A answers 500 and every other URL answers 200. -/
theorem C7_witness :
    resultTrace (send_embed_webhook 2
        { defaultSettings with send_errors := "True", error_webhook := "E" }
        (fun w => if w = "A" then ⟨false, 500, "err"⟩ else ⟨true, 200, "ok"⟩)
        ⟨Except.ok ⟨true, 200, ""⟩, fun _ => Except.ok ⟨true, 200, ""⟩, fun _ => JsonModel.parseError⟩
        0 42 [] "hi" "" "a" "D" "A,B,C" "u")
      = some ⟨["A", "E", "B", "C"], 1, true⟩ := by
  have h := C7_dispatcher_independent_fanout
    (fun w => if w = "A" then ⟨false, 500, "err"⟩ else ⟨true, 200, "ok"⟩)
    ⟨Except.ok ⟨true, 200, ""⟩, fun _ => Except.ok ⟨true, 200, ""⟩, fun _ => JsonModel.parseError⟩
    0 rfl rfl rfl rfl
  exact h

/-! Claim C8 — temp-dir cleanup in `send_hook_and_files`. -/

/-- Claim C8, counterexample: with image upload enabled, when the send
itself raises, control returns to the caller with the staged temporary
directory still on disk — `temp_dir.cleanup()` (line 266) sits after the
send with no `try`/`finally`, so the exceptional exit path skips it. -/
theorem C8_counterexample :
    send_hook_and_files { defaultSettings with upload_images := true }
      (fun _ => ⟨true, 200, "bytes"⟩) true ["u"] "m"
      = Except.error ⟨true, true⟩ := rfl

/-- Claim C8 (amended): on every normal return — including when some
downloads failed, since failed downloads are merely skipped — the created
temporary directory has been cleaned up; but when the send raises, the
exception propagates before the cleanup line and the directory is left
on disk. -/
theorem C8_amended_cleanup_on_normal_exit_only (s : Settings) (net : String → Resp)
    (media_links : List String) (msg : String) :
    send_hook_and_files s net false media_links msg
      = Except.ok (⟨s.upload_images, false⟩,
          (if s.upload_images then (download_images net media_links).1 else []),
          (if s.append_image_links then
            media_links.foldl (fun m media_link => m ++ "\n" ++ media_link) msg
          else msg))
    ∧ send_hook_and_files s net true media_links msg
      = Except.error ⟨s.upload_images, s.upload_images⟩ :=
  ⟨rfl, rfl⟩

/-! Claim C9 — which auxiliary-service failures `get_embed_image`
degrades and which ones it propagates. -/

/-- Claim C9, counterexample: a timeout of the collage `GET` is a
transport error on an auxiliary service, yet `get_embed_image` propagates
the exception to its caller instead of returning the first-link
fallback — the source only handles a non-success status, and wraps no
call in `try`. -/
theorem C9_counterexample :
    get_embed_image ⟨Except.error (), fun _ => Except.ok ⟨true, 200, ""⟩,
        fun _ => JsonModel.parseError⟩ ["a", "b"] 7
      = Except.error PyExn.timeout := rfl

/-- Claim C9 (amended): only a non-success collage status and a failed
existence `HEAD` degrade to the first-link fallback (with an error
report); a timeout of the `GET`, an unparseable body, a body without a
`url` field, and a timeout of the `HEAD` all raise and propagate to the
caller. -/
theorem C9_amended_auxiliary_error_handling (env : CollageEnv) (tweet_id : Nat)
    (a b : String) (rest : List String) :
    (∀ resp : Resp, env.collageResp = Except.ok resp → resp.ok = false →
      get_embed_image env (a :: b :: rest) tweet_id = Except.ok (a, 1))
    ∧ (∀ (resp headresp : Resp) (u : String),
        env.collageResp = Except.ok resp → resp.ok = true →
        env.jsonUrl resp.text = JsonModel.url u →
        env.headResp u = Except.ok headresp → headresp.ok = false →
        get_embed_image env (a :: b :: rest) tweet_id = Except.ok (a, 1))
    ∧ (env.collageResp = Except.error () →
        get_embed_image env (a :: b :: rest) tweet_id = Except.error PyExn.timeout)
    ∧ (∀ resp : Resp, env.collageResp = Except.ok resp → resp.ok = true →
        env.jsonUrl resp.text = JsonModel.parseError →
        get_embed_image env (a :: b :: rest) tweet_id = Except.error PyExn.jsonDecodeError)
    ∧ (∀ resp : Resp, env.collageResp = Except.ok resp → resp.ok = true →
        env.jsonUrl resp.text = JsonModel.missingUrl →
        get_embed_image env (a :: b :: rest) tweet_id = Except.error PyExn.keyError)
    ∧ (∀ (resp : Resp) (u : String), env.collageResp = Except.ok resp → resp.ok = true →
        env.jsonUrl resp.text = JsonModel.url u →
        env.headResp u = Except.error () →
        get_embed_image env (a :: b :: rest) tweet_id = Except.error PyExn.timeout) := by
  have h0 : (a :: b :: rest).length ≠ 0 := by simp
  have h1 : ¬ ((a :: b :: rest).length = 1) := by simp
  have h2 : (a :: b :: rest).length > 1 := by simp
  refine ⟨?_, ?_, ?_, ?_, ?_, ?_⟩
  · intro resp hresp hok
    dsimp only [get_embed_image]
    rw [if_pos h0, if_neg h1, if_pos h2, hresp]
    simp [hok]
  · intro resp headresp u hresp hok hjson hhead hheadok
    dsimp only [get_embed_image]
    rw [if_pos h0, if_neg h1, if_pos h2, hresp]
    simp [hok, hjson, hhead, hheadok]
  · intro hresp
    dsimp only [get_embed_image]
    rw [if_pos h0, if_neg h1, if_pos h2, hresp]
  · intro resp hresp hok hjson
    dsimp only [get_embed_image]
    rw [if_pos h0, if_neg h1, if_pos h2, hresp]
    simp [hok, hjson]
  · intro resp hresp hok hjson
    dsimp only [get_embed_image]
    rw [if_pos h0, if_neg h1, if_pos h2, hresp]
    simp [hok, hjson]
  · intro resp u hresp hok hjson hhead
    dsimp only [get_embed_image]
    rw [if_pos h0, if_neg h1, if_pos h2, hresp]
    simp [hok, hjson, hhead]

/-- Claim C9, witness: the amended theorem applied at a 500-status
collage response (fallback to the first link) and at a 200 response whose
body does not parse (`JSONDecodeError` propagates). -/
theorem C9_witness :
    get_embed_image ⟨Except.ok ⟨false, 500, "down"⟩, fun _ => Except.ok ⟨true, 200, ""⟩,
        fun _ => JsonModel.parseError⟩ ["m1", "m2"] 11 = Except.ok ("m1", 1)
    ∧ get_embed_image ⟨Except.ok ⟨true, 200, "<html>"⟩, fun _ => Except.ok ⟨true, 200, ""⟩,
        fun _ => JsonModel.parseError⟩ ["m1", "m2"] 11 = Except.error PyExn.jsonDecodeError := by
  constructor
  · exact (C9_amended_auxiliary_error_handling _ 11 "m1" "m2" []).1 ⟨false, 500, "down"⟩ rfl rfl
  · exact (C9_amended_auxiliary_error_handling _ 11 "m1" "m2" []).2.2.2.1 ⟨true, 200, "<html>"⟩
      rfl rfl rfl

/-! Claim C10 — media links sharing a final path segment collide in the
staging directory. -/


/-- Shifting the `download_images` fold by a starting accumulator only
prepends the accumulator's components. -/
lemma foldl_downloadStep_shift (net : String → Resp) :
    ∀ (media_links : List String) (acc : List String × List (String × String)),
      media_links.foldl (downloadStep net) acc
        = (acc.1 ++ (download_images net media_links).1,
           acc.2 ++ (download_images net media_links).2) := by
  intro media_links
  induction media_links with
  | nil => intro acc; simp [download_images]
  | cons x xs ih =>
    intro acc
    simp only [download_images, List.foldl_cons] at ih ⊢
    rw [ih (downloadStep net acc x), ih (downloadStep net ([], []) x)]
    cases hok : (net x).ok <;> simp [downloadStep, hok]

/-- Staging a concatenation of media lists concatenates the staged paths
and the file writes. -/
lemma download_images_append (net : String → Resp) (xs ys : List String) :
    download_images net (xs ++ ys)
      = ((download_images net xs).1 ++ (download_images net ys).1,
         (download_images net xs).2 ++ (download_images net ys).2) := by
  rw [download_images, List.foldl_append, foldl_downloadStep_shift net ys]
  rfl

/-- Staging `x :: l` is `x`'s step followed by the staging of `l`. -/
lemma download_images_cons (net : String → Resp) (x : String) (l : List String) :
    download_images net (x :: l)
      = ((downloadStep net ([], []) x).1 ++ (download_images net l).1,
         (downloadStep net ([], []) x).2 ++ (download_images net l).2) := by
  rw [download_images, List.foldl_cons, foldl_downloadStep_shift net l]

/-- After a final write to `p`, the file at `p` holds exactly that
write's bytes, whatever was written before. -/
lemma finalContent_concat (ws : List (String × String)) (p t : String) :
    finalContent (ws ++ [(p, t)]) p = some t := by
  dsimp only [finalContent]
  rw [List.filter_append]
  simp

/-- Claim C10: in every media-link list containing two distinct URLs
`u1` (earlier) and `u2` (later) whose final `/`-segments coincide — with
arbitrary other links before, between and after them — both downloads
are written to the same staged path: that path appears (at least) twice
in the returned list of staged files, once for each of the two URLs, and
immediately after `u2`'s download the file at the shared path holds
`u2`'s bytes, overwriting `u1`'s. -/
theorem C10_duplicate_basename_collision (net : String → Resp) (u1 u2 : String)
    (pre mid post : List String)
    (hne : u1 ≠ u2) (hseg : lastSegment u1 = lastSegment u2)
    (h1 : (net u1).ok = true) (h2 : (net u2).ok = true) :
    (download_images net (pre ++ u1 :: (mid ++ u2 :: post))).1
        = (download_images net pre).1
          ++ stagedPath u1 :: ((download_images net mid).1
          ++ stagedPath u1 :: (download_images net post).1)
    ∧ (download_images net (pre ++ u1 :: (mid ++ u2 :: post))).2
        = (download_images net pre).2
          ++ (stagedPath u1, (net u1).text) :: ((download_images net mid).2
          ++ (stagedPath u1, (net u2).text) :: (download_images net post).2)
    ∧ 2 ≤ ((download_images net (pre ++ u1 :: (mid ++ u2 :: post))).1.count (stagedPath u1))
    ∧ finalContent (download_images net (pre ++ u1 :: (mid ++ [u2]))).2 (stagedPath u1)
        = some (net u2).text := by
  have hp2 : stagedPath u2 = stagedPath u1 := by
    dsimp only [stagedPath]
    rw [hseg]
  have hstep1 : downloadStep net ([], []) u1
      = ([stagedPath u1], [(stagedPath u1, (net u1).text)]) := by
    dsimp only [downloadStep]
    rw [if_pos h1]
    simp
  have hstep2 : downloadStep net ([], []) u2
      = ([stagedPath u1], [(stagedPath u1, (net u2).text)]) := by
    dsimp only [downloadStep]
    rw [if_pos h2, hp2]
    simp
  have himg : (download_images net (pre ++ u1 :: (mid ++ u2 :: post))).1
      = (download_images net pre).1
        ++ stagedPath u1 :: ((download_images net mid).1
        ++ stagedPath u1 :: (download_images net post).1) := by
    rw [download_images_append net pre (u1 :: (mid ++ u2 :: post)),
      download_images_cons net u1 (mid ++ u2 :: post),
      download_images_append net mid (u2 :: post),
      download_images_cons net u2 post, hstep1, hstep2]
    simp
  have hwrites : (download_images net (pre ++ u1 :: (mid ++ u2 :: post))).2
      = (download_images net pre).2
        ++ (stagedPath u1, (net u1).text) :: ((download_images net mid).2
        ++ (stagedPath u1, (net u2).text) :: (download_images net post).2) := by
    rw [download_images_append net pre (u1 :: (mid ++ u2 :: post)),
      download_images_cons net u1 (mid ++ u2 :: post),
      download_images_append net mid (u2 :: post),
      download_images_cons net u2 post, hstep1, hstep2]
    simp
  refine ⟨himg, hwrites, ?_, ?_⟩
  · rw [himg]
    simp [List.count_append]
    omega
  · have hw2 : (download_images net (pre ++ u1 :: (mid ++ [u2]))).2
        = ((download_images net pre).2
          ++ (stagedPath u1, (net u1).text) :: (download_images net mid).2)
          ++ [(stagedPath u1, (net u2).text)] := by
      rw [download_images_append net pre (u1 :: (mid ++ [u2])),
        download_images_cons net u1 (mid ++ [u2]),
        download_images_append net mid [u2],
        download_images_cons net u2 [], hstep1, hstep2]
      simp [download_images]
    rw [hw2, finalContent_concat]

/-- Claim C10, witness: the theorem applied to a five-link list in which
the second and fourth links both end in `img.png`, with unrelated links
before, between and after them. -/
theorem C10_witness :
    (download_images (fun u => ⟨true, 200, "bytes:" ++ u⟩)
        ["http://c/other.jpg", "http://a/x/img.png", "http://e/mid.gif",
         "http://b/y/img.png", "http://d/z.png"]).1
      = ["TMPDIR/other.jpg", "TMPDIR/img.png", "TMPDIR/mid.gif", "TMPDIR/img.png", "TMPDIR/z.png"]
    ∧ (download_images (fun u => ⟨true, 200, "bytes:" ++ u⟩)
        ["http://c/other.jpg", "http://a/x/img.png", "http://e/mid.gif",
         "http://b/y/img.png", "http://d/z.png"]).2
      = [("TMPDIR/other.jpg", "bytes:http://c/other.jpg"),
         ("TMPDIR/img.png", "bytes:http://a/x/img.png"),
         ("TMPDIR/mid.gif", "bytes:http://e/mid.gif"),
         ("TMPDIR/img.png", "bytes:http://b/y/img.png"),
         ("TMPDIR/z.png", "bytes:http://d/z.png")]
    ∧ 2 ≤ (download_images (fun u => ⟨true, 200, "bytes:" ++ u⟩)
        ["http://c/other.jpg", "http://a/x/img.png", "http://e/mid.gif",
         "http://b/y/img.png", "http://d/z.png"]).1.count "TMPDIR/img.png"
    ∧ finalContent (download_images (fun u => ⟨true, 200, "bytes:" ++ u⟩)
        ["http://c/other.jpg", "http://a/x/img.png", "http://e/mid.gif",
         "http://b/y/img.png"]).2 "TMPDIR/img.png"
      = some "bytes:http://b/y/img.png" := by
  have h := C10_duplicate_basename_collision (fun u => ⟨true, 200, "bytes:" ++ u⟩)
    "http://a/x/img.png" "http://b/y/img.png"
    ["http://c/other.jpg"] ["http://e/mid.gif"] ["http://d/z.png"]
    (by decide) (by decide) rfl rfl
  exact h
